import Mathlib

/-!
Verification of the quote-cache and alert-evaluation core of the
`stock-tg-remind` Telegram stock-alert bot (`stock_bot.py`), shallowly
embedded in Lean 4.  Prices, percentages and timestamps are modelled as
rationals (timestamps in the natural unit of each call site: seconds for
the quote cache, minutes for alert state).  Python dictionaries are
modelled as association lists with dict semantics (update in place,
append when absent); Python `round(x, 2)` is modelled as exact
round-half-to-even on rationals.
-/

set_option autoImplicit false

namespace StockBot

/-- Association-list lookup, first matching key (dict lookup). -/
def alookup {α : Type} (m : List (String × α)) (k : String) : Option α :=
  match m with
  | [] => none
  | p :: rest => if p.1 = k then some p.2 else alookup rest k

/-- Association-list insert with dict semantics: replace the first
occurrence of the key in place, or append when absent. -/
def ainsert {α : Type} (m : List (String × α)) (k : String) (v : α) :
    List (String × α) :=
  match m with
  | [] => [(k, v)]
  | p :: rest => if p.1 = k then (k, v) :: rest else p :: ainsert rest k v

/-- Association-list delete (Python `del d[k]`). -/
def aerase {α : Type} (m : List (String × α)) (k : String) : List (String × α) :=
  m.filter (fun p => !(p.1 == k))

/-- Does the string start with the given character (Python
`s.startswith(c)` for a one-character pattern)? -/
def headIs (s : String) (c : Char) : Bool :=
  match s.data with
  | [] => false
  | d :: _ => d == c

/-- Python `s.replace('.', '')`: drop every dot. -/
def dropDots (s : String) : String :=
  String.mk (s.data.filter (fun c => c ≠ '.'))

/-- Python `str.isdigit()` (ASCII model): nonempty and all digits. -/
def pyIsDigit (s : String) : Bool :=
  !s.data.isEmpty && s.data.all Char.isDigit

/-- Python `str.isalpha()` (ASCII model): nonempty and all letters. -/
def pyIsAlpha (s : String) : Bool :=
  !s.data.isEmpty && s.data.all Char.isAlpha

/-- Numeric value of a digit-character list (no sign). -/
def natOfDigits (cs : List Char) : ℕ :=
  cs.foldl (fun a c => 10 * a + (c.toNat - 48)) 0

/-- Strip one leading sign character; returns (isNegative, rest). -/
def stripSignC (cs : List Char) : Bool × List Char :=
  match cs with
  | '-' :: r => (true, r)
  | '+' :: r => (false, r)
  | r => (false, r)

/-- Model of Python `float(s)` on plain decimal notation: optional sign,
digits with at most one decimal point, at least one digit. Returns
`none` (the `ValueError` path) for anything else. -/
def parseFloat? (s : String) : Option ℚ :=
  let p := stripSignC s.data
  let ip := p.2.takeWhile (fun c => c ≠ '.')
  let mag : Option ℚ :=
    match p.2.dropWhile (fun c => c ≠ '.') with
    | [] =>
      if ip.all Char.isDigit && !ip.isEmpty then some ((natOfDigits ip : ℚ))
      else none
    | _ :: fp =>
      if ip.all Char.isDigit && fp.all Char.isDigit
          && (!ip.isEmpty || !fp.isEmpty) then
        some ((natOfDigits ip : ℚ) + (natOfDigits fp : ℚ) / (10 ^ fp.length))
      else none
  mag.map (fun x => if p.1 then -x else x)

/-- Model of Python `int(s)`: optional sign then digits only. -/
def parseInt? (s : String) : Option ℤ :=
  let p := stripSignC s.data
  if p.2.all Char.isDigit && !p.2.isEmpty then
    some (if p.1 then -(natOfDigits p.2 : ℤ) else (natOfDigits p.2 : ℤ))
  else none

/-- Round-half-to-even to the nearest integer (Python `round`). -/
def rhe (q : ℚ) : ℤ :=
  if q - (⌊q⌋ : ℚ) < 1 / 2 then ⌊q⌋
  else if q - (⌊q⌋ : ℚ) > 1 / 2 then ⌊q⌋ + 1
  else if ⌊q⌋ % 2 = 0 then ⌊q⌋ else ⌊q⌋ + 1

/-- Python `round(q, 2)`: round-half-to-even at the second decimal. -/
def round2 (q : ℚ) : ℚ := (rhe (q * 100) : ℚ) / 100

/-- A parsed quote record, as built by
`StockDataFetcher._parse_single_stock_data` (the `stock_data` dict). -/
structure StockData where
  code : String
  name : String
  current_price : ℚ
  prev_close : ℚ
  open_price : ℚ
  volume : ℤ
  high_price : ℚ
  low_price : ℚ
  change : ℚ
  change_percent : ℚ
  timestamp : ℚ
  deriving DecidableEq, Inhabited

/-- A `StockCache` entry: `{'data': ..., 'timestamp': ...}`. -/
structure CacheEntry where
  data : StockData
  timestamp : ℚ
  deriving DecidableEq

/-- `StockCache.get_stock_data`: serve the cached quote while the entry is
younger than the configured TTL; on expiry delete the stale entry and
miss.  Returns the looked-up value together with the updated cache.
Timestamps and `ttl` are in seconds. -/
def get_stock_data (cache : List (String × CacheEntry)) (stock_code : String)
    (now ttl : ℚ) : Option StockData × List (String × CacheEntry) :=
  match alookup cache stock_code with
  | some e =>
    if now - e.timestamp < ttl then (some e.data, cache)
    else (none, aerase cache stock_code)
  | none => (none, cache)

/-- `StockCache.set_stock_data`: store the quote with the insertion
instant as its timestamp. -/
def set_stock_data (cache : List (String × CacheEntry)) (stock_code : String)
    (d : StockData) (now : ℚ) : List (String × CacheEntry) :=
  ainsert cache stock_code ⟨d, now⟩

/-- `StockDataFetcher._get_market_prefix`: venue tag from the symbol's
shape (sh / sz / hk / us, defaulting to sh). -/
def marketTag (stock_code : String) : String :=
  if headIs stock_code '6' then "sh"
  else if headIs stock_code '0' || headIs stock_code '3' then "sz"
  else if pyIsDigit stock_code && (stock_code.length == 5) then "hk"
  else if pyIsAlpha (dropDots stock_code) then "us"
  else "sh"

/-- The venue-qualified key the upstream response is indexed by. -/
def venueKey (stock_code : String) : String := marketTag stock_code ++ stock_code

/-- `int(fields[6]) if fields[6] else 0` — empty string means volume 0,
otherwise the string must parse as an integer. -/
def pyVolume? (s : String) : Option ℤ :=
  if s = "" then some 0 else parseInt? s

/-- `float(fields[i]) if fields[i] else 0` for the optional high/low
fields. -/
def pyOptFloat? (s : String) : Option ℚ :=
  if s = "" then some 0 else parseFloat? s

/-- `StockDataFetcher._parse_single_stock_data`: look up the
venue-qualified key in the decoded JSON object (a map from key to a
fixed-position array of string fields), require at least 40 fields, and
convert the numeric fields; any conversion failure (the caught
`ValueError`) makes the whole symbol resolve absent. -/
def parse_single_stock_data (json_data : List (String × List String))
    (stock_code : String) (now : ℚ) : Option StockData :=
  match alookup json_data (venueKey stock_code) with
  | none => none
  | some fields =>
    if fields.length < 40 then none
    else
      match parseFloat? (fields.getD 3 ""), parseFloat? (fields.getD 4 ""),
            parseFloat? (fields.getD 5 ""), pyVolume? (fields.getD 6 ""),
            pyOptFloat? (fields.getD 33 ""), pyOptFloat? (fields.getD 34 "") with
      | some cur, some prev, some opn, some vol, some hi, some lo =>
        some { code := fields.getD 2 ""
               name := fields.getD 1 ""
               current_price := cur
               prev_close := prev
               open_price := opn
               volume := vol
               high_price := hi
               low_price := lo
               change := if 0 < prev then round2 (cur - prev) else 0
               change_percent :=
                 if 0 < prev then round2 ((cur - prev) / prev * 100) else 0
               timestamp := now }
      | _, _, _, _, _, _ => none

/-- `StockDataFetcher._parse_batch_api_response` (after a successful JSON
decode): parse each requested symbol independently, caching each
successful quote; returns the symbol → optional-quote mapping and the
updated cache. -/
def parse_batch_api_response (json_data : List (String × List String))
    (requested_codes : List String) (now : ℚ)
    (cache : List (String × CacheEntry)) :
    List (String × Option StockData) × List (String × CacheEntry) :=
  match requested_codes with
  | [] => ([], cache)
  | c :: cs =>
    let sd := parse_single_stock_data json_data c now
    let cache1 := match sd with
      | some d => set_stock_data cache c d now
      | none => cache
    let rest := parse_batch_api_response json_data cs now cache1
    ((c, sd) :: rest.1, rest.2)

/-- `is_trading_time`, as a pure function of the symbol and the current
Beijing instant (month 1–12, weekday 0 = Monday … 6 = Sunday, `t` the
time of day in minutes since midnight). -/
def is_trading_time (stock_code : String) (month weekday : ℕ) (t : ℚ) : Bool :=
  if weekday ≥ 5 then false
  else if headIs stock_code '6' || headIs stock_code '0'
          || headIs stock_code '3' then
    decide ((570 ≤ t ∧ t ≤ 690) ∨ (780 ≤ t ∧ t ≤ 900))
  else if pyIsDigit stock_code && (stock_code.length == 5) then
    decide ((570 ≤ t ∧ t ≤ 720) ∨ (780 ≤ t ∧ t ≤ 960))
  else if pyIsAlpha (dropDots stock_code) then
    if month ≥ 11 ∨ month ≤ 3 then decide (t ≥ 1350 ∨ t ≤ 300)
    else decide (t ≥ 1290 ∨ t ≤ 240)
  else true

/-- An alert definition, as built by `AlertManager.add_alert`. -/
structure AlertRec where
  user_id : ℤ
  stock_code : String
  alert_type : String
  threshold : ℚ
  threshold_direction : String
  interval_minutes : ℤ
  last_alert_time : Option ℚ
  created_at : ℚ
  deriving DecidableEq

/-- A `alert_states` record for the DailyChange edge check. -/
structure DailyState where
  triggered : Bool
  last_change_percent : ℚ
  last_update : ℚ
  alert_id : String
  deriving DecidableEq

/-- A `price_history` record: the windowed reference price. -/
structure PriceEntry where
  price : ℚ
  timestamp : ℚ
  deriving DecidableEq

/-- The persisted alert collection (`AlertManager.alerts`).  Timestamps
in this structure are in minutes. -/
structure AlertsData where
  alerts : List AlertRec
  last_alert_times : List (String × ℚ)
  alert_states : List (String × DailyState)
  price_history : List (String × PriceEntry)
  alert_history : List (ℤ × String × ℚ)
  deriving DecidableEq

/-- The freshly-initialised alert collection. -/
def emptyAlerts : AlertsData := ⟨[], [], [], [], []⟩

/-- The `alert_states` key
`f"{user_id}_{stock_code}_{alert_type}_{threshold}_{threshold_direction}"`. -/
def dailyStateKey (a : AlertRec) : String :=
  toString a.user_id ++ "_" ++ a.stock_code ++ "_" ++ a.alert_type ++ "_"
    ++ toString a.threshold ++ "_" ++ a.threshold_direction

/-- The `last_alert_times` key `f"{user_id}_{stock_code}_{alert_type}"`. -/
def rateKey (a : AlertRec) : String :=
  toString a.user_id ++ "_" ++ a.stock_code ++ "_" ++ a.alert_type

/-- The `price_history` key
`f"{user_id}_{stock_code}_{alert_type}_last_price"`. -/
def lastPriceKey (a : AlertRec) : String :=
  toString a.user_id ++ "_" ++ a.stock_code ++ "_" ++ a.alert_type
    ++ "_last_price"

/-- The `currently_triggered` if-chain inside
`AlertManager.can_send_daily_change_alert`. -/
def daily_trigger_cond (direction : String) (threshold change_percent : ℚ) : Bool :=
  if direction = "both" then decide (|change_percent| ≥ threshold)
  else if direction = "up" then decide (change_percent ≥ threshold)
  else if direction = "down" then decide (change_percent ≤ -threshold)
  else false

/-- The `should_trigger` if-chain inside the WindowedChange branch of
`StockBot.check_alerts_async`. -/
def windowed_trigger_cond (direction : String) (threshold change_percent : ℚ) : Bool :=
  if direction = "both" then decide (|change_percent| ≥ threshold)
  else if direction = "up" then decide (change_percent ≥ threshold)
  else if direction = "down" then decide (change_percent ≤ -threshold)
  else false

/-- `AlertManager.add_alert`: reject when an alert with the same owner,
symbol, type, threshold, direction and interval already exists, else
append the new definition. -/
def add_alert (st : AlertsData) (user_id : ℤ) (stock_code alert_type : String)
    (threshold : ℚ) (interval_minutes : ℤ) (threshold_direction : String)
    (now : ℚ) : Bool × AlertsData :=
  let alert : AlertRec :=
    ⟨user_id, stock_code, alert_type, threshold, threshold_direction,
      interval_minutes, none, now⟩
  if st.alerts.any (fun e =>
      decide (e.user_id = user_id ∧ e.stock_code = stock_code
        ∧ e.alert_type = alert_type ∧ e.threshold = threshold
        ∧ e.threshold_direction = threshold_direction
        ∧ e.interval_minutes = interval_minutes)) then
    (false, st)
  else
    (true, { st with alerts := st.alerts ++ [alert] })

/-- `AlertManager.remove_alert`: delete the alert at position `alert_id`
of the global alert list, provided it belongs to `user_id`. -/
def remove_alert (st : AlertsData) (user_id : ℤ) (alert_id : ℕ) :
    Bool × AlertsData :=
  match st.alerts[alert_id]? with
  | some a =>
    if a.user_id = user_id then
      (true, { st with alerts := st.alerts.eraseIdx alert_id })
    else (false, st)
  | none => (false, st)

/-- `AlertManager.get_user_alerts`. -/
def get_user_alerts (st : AlertsData) (user_id : ℤ) : List AlertRec :=
  st.alerts.filter (fun a => a.user_id == user_id)

/-- `AlertManager.can_send_alert`: the rate-limit check-and-set, keyed by
(owner, symbol, type); true (recording `now`) iff no prior fire within
`interval_minutes` minutes. -/
def can_send_alert (st : AlertsData) (a : AlertRec) (now : ℚ) :
    Bool × AlertsData :=
  match alookup st.last_alert_times (rateKey a) with
  | some last_time =>
    if now - last_time < (a.interval_minutes : ℚ) then (false, st)
    else (true, { st with
      last_alert_times := ainsert st.last_alert_times (rateKey a) now })
  | none =>
    (true, { st with
      last_alert_times := ainsert st.last_alert_times (rateKey a) now })

/-- `AlertManager.can_send_daily_change_alert`: the DailyChange edge
check.  Computes the current trigger flag, compares it with the stored
one, unconditionally overwrites the stored state, and reports a
false→true transition. -/
def can_send_daily_change_alert (st : AlertsData) (a : AlertRec)
    (change_percent now : ℚ) : Bool × AlertsData :=
  let key := dailyStateKey a
  let currently_triggered :=
    daily_trigger_cond a.threshold_direction a.threshold change_percent
  let previously_triggered :=
    ((alookup st.alert_states key).map (fun s => s.triggered)).getD false
  let can_send := currently_triggered && !previously_triggered
  let newState : DailyState :=
    ⟨currently_triggered, change_percent, now,
      a.stock_code ++ "_" ++ a.alert_type⟩
  (can_send, { st with alert_states := ainsert st.alert_states key newState })

/-- `AlertManager.get_last_price_for_alert`: the stored windowed
reference price, valid only while younger than `interval_minutes + 2`
minutes. -/
def get_last_price_for_alert (st : AlertsData) (a : AlertRec) (now : ℚ) :
    Option ℚ :=
  match alookup st.price_history (lastPriceKey a) with
  | some e =>
    if now - e.timestamp < (a.interval_minutes : ℚ) + 2 then some e.price
    else none
  | none => none

/-- `AlertManager.update_last_price_for_alert`. -/
def update_last_price_for_alert (st : AlertsData) (a : AlertRec)
    (current_price now : ℚ) : AlertsData :=
  { st with price_history :=
      ainsert st.price_history (lastPriceKey a) ⟨current_price, now⟩ }

/-- Outcome of evaluating one WindowedChange alert on one tick. -/
structure WinResult where
  state : AlertsData
  triggered : Bool
  queued : Bool
  deriving DecidableEq

/-- The WindowedChange (`价格变化`) branch of `StockBot.check_alerts_async`
for one alert whose symbol is open and whose quote resolved, including
the subsequent `can_send_alert` rate-limit gate that decides whether the
notification is queued.  `current_price` is the quote's current price. -/
def check_windowed_alert (st : AlertsData) (a : AlertRec)
    (current_price now : ℚ) : WinResult :=
  match get_last_price_for_alert st a now with
  | some last_price =>
    if 0 < last_price then
      let change_percent :=
        round2 ((current_price - last_price) / last_price * 100)
      if windowed_trigger_cond a.threshold_direction a.threshold change_percent then
        let st1 := update_last_price_for_alert st a current_price now
        let r := can_send_alert st1 a now
        ⟨r.2, true, r.1⟩
      else ⟨st, false, false⟩
    else ⟨update_last_price_for_alert st a current_price now, false, false⟩
  | none => ⟨update_last_price_for_alert st a current_price now, false, false⟩

/-- Fire-or-not trace of the DailyChange edge check over a sequence of
observed change percents, threading the alert state. -/
def daily_fire_seq (a : AlertRec) (st : AlertsData) : List ℚ → List Bool
  | [] => []
  | cp :: rest =>
    let r := can_send_daily_change_alert st a cp 0
    r.1 :: daily_fire_seq a r.2 rest

/-! Concrete fixtures used in the example parts of the theorems below. -/

/-- A DailyChange alert, threshold 5, direction Both. -/
def alertDaily5 : AlertRec := ⟨1, "600000", "今日涨跌", 5, "both", 5, none, 0⟩

/-- A WindowedChange alert, threshold 2, direction Both. -/
def alertWinBoth : AlertRec := ⟨1, "600000", "价格变化", 2, "both", 5, none, 0⟩

/-- A WindowedChange alert, threshold 2, direction Down. -/
def alertWinDown : AlertRec := ⟨1, "600000", "价格变化", 2, "down", 5, none, 0⟩

/-- A WindowedChange alert, threshold 2, direction Up. -/
def alertWinUp : AlertRec := ⟨1, "600000", "价格变化", 2, "up", 5, none, 0⟩

/-- Alert state holding a windowed reference price of 10000 recorded at
minute 0 for `alertWinBoth`. -/
def refState : AlertsData :=
  { emptyAlerts with price_history := [(lastPriceKey alertWinBoth, ⟨10000, 0⟩)] }

/-- Alert state holding a windowed reference price of −10 recorded at
minute 0 for `alertWinDown`. -/
def refStateNeg : AlertsData :=
  { emptyAlerts with price_history := [(lastPriceKey alertWinDown, ⟨-10, 0⟩)] }

/-- Alert state holding a windowed reference price of 100 recorded at
minute 0 for `alertWinUp`. -/
def refStateUp : AlertsData :=
  { emptyAlerts with price_history := [(lastPriceKey alertWinUp, ⟨100, 0⟩)] }

/-- Two windowed alerts by the same owner on the same symbol differing in
threshold, direction and interval. -/
def alertWinA : AlertRec := ⟨1, "600000", "价格变化", 2, "up", 5, none, 0⟩

/-- See `alertWinA`. -/
def alertWinB : AlertRec := ⟨1, "600000", "价格变化", 7, "down", 30, none, 0⟩

/-- An alert owned by user 2, sitting at global position 0. -/
def alertOfUser2 : AlertRec := ⟨2, "000001", "今日涨跌", 5, "both", 5, none, 0⟩

/-- An alert owned by user 1, sitting at global position 1. -/
def alertOfUser1 : AlertRec := ⟨1, "600000", "价格变化", 2, "both", 5, none, 0⟩

/-- Alert collection where user 1's only alert sits behind user 2's. -/
def interleavedAlerts : AlertsData :=
  { emptyAlerts with alerts := [alertOfUser2, alertOfUser1] }

/-- A well-formed 40-entry upstream field array for symbol 600000. -/
def fieldsSh : List String :=
  ["1", "平安银行", "600000", "10.5", "10", "10.1", "1000"] ++ List.replicate 33 "1"

/-- A well-formed 40-entry upstream field array for symbol 000001. -/
def fieldsSz : List String :=
  ["1", "万科A", "000001", "20", "16", "18", "500"] ++ List.replicate 33 "2"

/-- A 40-entry field array whose price field is not numeric. -/
def fieldsBad : List String :=
  ["1", "n", "600000", "abc"] ++ List.replicate 36 "1"

/-- Upstream response carrying only `fieldsSh` under its sh key. -/
def jsonSh : List (String × List String) := [("sh600000", fieldsSh)]

/-- Upstream response carrying two valid keys (sh600000 and sz000001). -/
def jsonTwo : List (String × List String) :=
  [("sh600000", fieldsSh), ("sz000001", fieldsSz)]

/-- Upstream response carrying only the malformed `fieldsBad`. -/
def jsonBad : List (String × List String) := [("sh600000", fieldsBad)]

/-- The quote parsed from `fieldsSh`. -/
def quoteSh : StockData :=
  ⟨"600000", "平安银行", 21/2, 10, 101/10, 1000, 1, 1, 1/2, 5, 0⟩

/-- The quote parsed from `fieldsSz`. -/
def quoteSz : StockData :=
  ⟨"000001", "万科A", 20, 16, 18, 500, 2, 2, 4, 25, 0⟩

/-- A throwaway quote for cache fixtures. -/
def quoteFix : StockData := ⟨"600000", "n", 10, 10, 10, 0, 0, 0, 0, 0, 0⟩

/-! Helper lemmas about the association-list operations and the shared
direction predicate. -/

theorem alookup_ainsert {α : Type} (m : List (String × α)) (k : String) (v : α) :
    alookup (ainsert m k v) k = some v := by
  induction m with
  | nil => simp [ainsert, alookup]
  | cons p rest ih =>
    by_cases h : p.1 = k
    · simp [ainsert, h, alookup]
    · simp [ainsert, h, alookup, ih]

theorem alookup_ainsert_ne {α : Type} (m : List (String × α)) (k k2 : String)
    (v : α) (h : k2 ≠ k) : alookup (ainsert m k v) k2 = alookup m k2 := by
  have h2 : k ≠ k2 := Ne.symm h
  induction m with
  | nil => simp [ainsert, alookup, h2]
  | cons p rest ih =>
    by_cases hp : p.1 = k
    · have hpk2 : p.1 ≠ k2 := by rw [hp]; exact h2
      simp [ainsert, hp, alookup, h2, hpk2]
    · by_cases hq : p.1 = k2
      · simp [ainsert, hp, alookup, hq, h]
      · simp [ainsert, hp, alookup, hq, ih]

theorem alookup_aerase_ne {α : Type} (m : List (String × α)) (k k2 : String)
    (h : k2 ≠ k) : alookup (aerase m k) k2 = alookup m k2 := by
  induction m with
  | nil => rfl
  | cons p rest ih =>
    by_cases hp : p.1 = k
    · have hpk2 : p.1 ≠ k2 := by rw [hp]; exact Ne.symm h
      simp [aerase, hp, alookup, hpk2, Ne.symm h] at ih ⊢
      exact ih
    · simp [aerase, hp, alookup] at ih ⊢
      by_cases hq : p.1 = k2 <;> simp [hq, ih]

theorem daily_trigger_cond_eq_decide (dir : String) (th d : ℚ) :
    daily_trigger_cond dir th d =
      decide ((dir = "both" ∧ |d| ≥ th) ∨ (dir = "up" ∧ d ≥ th)
        ∨ (dir = "down" ∧ d ≤ -th)) := by
  unfold daily_trigger_cond
  by_cases h1 : dir = "both"
  · subst h1; simp
  · by_cases h2 : dir = "up"
    · subst h2; simp
    · by_cases h3 : dir = "down"
      · subst h3; simp
      · simp [h1, h2, h3]

theorem windowed_trigger_cond_eq_decide (dir : String) (th d : ℚ) :
    windowed_trigger_cond dir th d =
      decide ((dir = "both" ∧ |d| ≥ th) ∨ (dir = "up" ∧ d ≥ th)
        ∨ (dir = "down" ∧ d ≤ -th)) :=
  daily_trigger_cond_eq_decide dir th d

/-- Claim C5: the triggering condition of the DailyChange edge check and
the one of the WindowedChange evaluation are one shared rule: for every
direction string, threshold `t` and percentage `d` they agree, and both
equal the rule (Both: `|d| ≥ t`; Up: `d ≥ t`; Down: `d ≤ -t`).  In
particular an Up condition with threshold 3 holds for `d = 3` and
`d = 10` and never for `d = -10`, at both sites. -/
theorem direction_predicate_shared (dir : String) (t d : ℚ) :
    windowed_trigger_cond dir t d = daily_trigger_cond dir t d
    ∧ (daily_trigger_cond dir t d = true ↔
        ((dir = "both" ∧ |d| ≥ t) ∨ (dir = "up" ∧ d ≥ t)
          ∨ (dir = "down" ∧ d ≤ -t)))
    ∧ daily_trigger_cond "up" 3 3 = true
    ∧ daily_trigger_cond "up" 3 10 = true
    ∧ daily_trigger_cond "up" 3 (-10) = false
    ∧ windowed_trigger_cond "up" 3 3 = true
    ∧ windowed_trigger_cond "up" 3 10 = true
    ∧ windowed_trigger_cond "up" 3 (-10) = false := by
  refine ⟨rfl, ?_, ?_, ?_, ?_, ?_, ?_, ?_⟩
  · rw [daily_trigger_cond_eq_decide]; simp
  all_goals with_unfolding_all decide

/-- Claim C8: the market-hours check reports closed for every symbol at
every instant on Saturday or Sunday (weekday ≥ 5); for a venue-A symbol
(leading digit 6) on a weekday it reports open exactly when the time of
day lies in 09:30–11:30 (minutes 570–690) or 13:00–15:00 (minutes
780–900).  In particular a venue-A symbol is closed at 12:00 (minute
720) on a weekday and at any time on Saturday, and open at 10:00
(minute 600) on a Tuesday (weekday 1). -/
theorem market_hours (code : String) (month weekday : ℕ) (t : ℚ) :
    (weekday ≥ 5 → is_trading_time code month weekday t = false)
    ∧ (weekday < 5 → headIs code '6' = true →
        (is_trading_time code month weekday t = true ↔
          ((570 ≤ t ∧ t ≤ 690) ∨ (780 ≤ t ∧ t ≤ 900))))
    ∧ is_trading_time "600000" 10 2 720 = false
    ∧ is_trading_time "600000" 10 5 600 = false
    ∧ is_trading_time "600000" 10 1 600 = true := by
  refine ⟨?_, ?_, ?_, ?_, ?_⟩
  · intro h
    simp [is_trading_time, h]
  · intro hw hc
    have h5 : ¬ (weekday ≥ 5) := by omega
    simp [is_trading_time, h5, hc]
  all_goals with_unfolding_all decide

/-- Witness for C8: Sunday is closed for an alphabetic (venue-D) symbol,
and minute 800 (13:20) on a Thursday is open for a leading-6 symbol. -/
theorem market_hours_witness :
    is_trading_time "AAPL" 6 6 0 = false
    ∧ is_trading_time "600000" 7 3 800 = true := by
  refine ⟨(market_hours "AAPL" 6 6 0).1 (by omega), ?_⟩
  exact ((market_hours "600000" 7 3 800).2.1 (by omega)
    (by with_unfolding_all decide)).mpr (Or.inr (by norm_num))

/-- Claim C4 (code bug): `remove_alert` interprets the index into the
global alert list (requiring only that the alert found there belongs to
the caller), not into the owner-scoped list that `get_user_alerts`
returns and that the bot's own `/list` numbering shows.  With user 2's
alert at global position 0 and user 1's at position 1, user 1's
owner-scoped index 0 is valid, yet `remove_alert` for user 1 at index 0
removes nothing and returns false, while index 1 removes the alert. -/
theorem remove_alert_global_index :
    get_user_alerts interleavedAlerts 1 = [alertOfUser1]
    ∧ remove_alert interleavedAlerts 1 0 = (false, interleavedAlerts)
    ∧ remove_alert interleavedAlerts 1 1
        = (true, { interleavedAlerts with alerts := [alertOfUser2] }) := by
  refine ⟨?_, ?_, ?_⟩
  · norm_num [get_user_alerts, interleavedAlerts, emptyAlerts, alertOfUser1, alertOfUser2]
  · norm_num [remove_alert, interleavedAlerts, emptyAlerts, alertOfUser1, alertOfUser2]
  · norm_num [remove_alert, interleavedAlerts, emptyAlerts, alertOfUser1, alertOfUser2, List.eraseIdx]

/-- Claim C10: the windowed reference-price key is built only from
(owner, symbol, alert kind); two alerts agreeing on those three fields —
whatever their threshold, direction and interval — share one reference
entry, and an update through one is read back through the other. -/
theorem windowed_reference_key_shared (a1 a2 : AlertRec)
    (hu : a1.user_id = a2.user_id) (hs : a1.stock_code = a2.stock_code)
    (ht : a1.alert_type = a2.alert_type) :
    lastPriceKey a1 = lastPriceKey a2
    ∧ ∀ (st : AlertsData) (p now : ℚ),
        alookup (update_last_price_for_alert st a1 p now).price_history
          (lastPriceKey a2) = some ⟨p, now⟩ := by
  have hk : lastPriceKey a1 = lastPriceKey a2 := by
    unfold lastPriceKey
    rw [hu, hs, ht]
  refine ⟨hk, fun st p now => ?_⟩
  show alookup (ainsert st.price_history (lastPriceKey a1) ⟨p, now⟩)
    (lastPriceKey a2) = some ⟨p, now⟩
  rw [hk]
  exact alookup_ainsert st.price_history (lastPriceKey a2) ⟨p, now⟩

/-- Witness for C10 at two concrete alerts differing in threshold,
direction and interval. -/
theorem windowed_reference_key_shared_witness :
    lastPriceKey alertWinA = lastPriceKey alertWinB
    ∧ alookup (update_last_price_for_alert emptyAlerts alertWinA 100 0).price_history
        (lastPriceKey alertWinB) = some ⟨100, 0⟩ := by
  have h := windowed_reference_key_shared alertWinA alertWinB rfl rfl rfl
  exact ⟨h.1, h.2 emptyAlerts 100 0⟩

/-- Claim C3: `get_stock_data` serves the cached quote iff an entry for
the symbol exists whose age is strictly below the TTL; an expired entry
is deleted on the lookup (and only then), other keys are never touched,
and with a 6-second TTL an entry inserted at 0 is served at 5.9s and
missed at 6.1s. -/
theorem cache_ttl (cache : List (String × CacheEntry)) (code : String)
    (now ttl : ℚ) :
    (∀ d, (get_stock_data cache code now ttl).1 = some d ↔
      ∃ e, alookup cache code = some e ∧ now - e.timestamp < ttl ∧ e.data = d)
    ∧ (∀ e, alookup cache code = some e → ¬ (now - e.timestamp < ttl) →
        get_stock_data cache code now ttl = (none, aerase cache code))
    ∧ (∀ c2, c2 ≠ code →
        alookup (get_stock_data cache code now ttl).2 c2 = alookup cache c2)
    ∧ (get_stock_data (set_stock_data [] "600000" quoteFix 0) "600000"
        (59/10) 6).1 = some quoteFix
    ∧ (get_stock_data (set_stock_data [] "600000" quoteFix 0) "600000"
        (61/10) 6).1 = none := by
  refine ⟨?_, ?_, ?_, ?_, ?_⟩
  · intro d
    unfold get_stock_data
    cases hal : alookup cache code with
    | none => simp
    | some e =>
      by_cases hts : now - e.timestamp < ttl
      · simp [hts]
      · simp [hts]
  · intro e hal hts
    unfold get_stock_data
    rw [hal]
    simp [hts]
  · intro c2 hne
    unfold get_stock_data
    cases hal : alookup cache code with
    | none => rfl
    | some e =>
      by_cases hts : now - e.timestamp < ttl
      · simp [hts]
      · simp [hts, alookup_aerase_ne cache code c2 hne]
  · with_unfolding_all decide
  · with_unfolding_all decide

/-- Witness for C3 at a concrete expired entry: the lookup misses,
evicts the entry, and leaves a different key alone. -/
theorem cache_ttl_witness :
    alookup (set_stock_data [] "600000" quoteFix 0) "600000"
        = some ⟨quoteFix, 0⟩
    ∧ ¬ ((61/10 : ℚ) - 0 < 6)
    ∧ get_stock_data (set_stock_data [] "600000" quoteFix 0) "600000" (61/10) 6
        = (none, aerase (set_stock_data [] "600000" quoteFix 0) "600000")
    ∧ alookup (get_stock_data (set_stock_data [] "600000" quoteFix 0) "600000"
        (61/10) 6).2 "000001" = alookup (set_stock_data [] "600000" quoteFix 0) "000001" := by
  refine ⟨by with_unfolding_all decide, by norm_num, ?_, ?_⟩
  · exact (cache_ttl (set_stock_data [] "600000" quoteFix 0) "600000" (61/10) 6).2.1
      ⟨quoteFix, 0⟩ (by with_unfolding_all decide) (by norm_num)
  · exact (cache_ttl (set_stock_data [] "600000" quoteFix 0) "600000" (61/10) 6).2.2.1
      "000001" (by decide)

/-- Claim C7: `add_alert` returns false and leaves the collection
unchanged exactly when some existing alert of the same owner matches on
(symbol, kind, threshold, direction, interval); otherwise it appends the
new definition and returns true — so adding the same definition twice
returns success then duplicate. -/
theorem add_alert_unique (st : AlertsData) (u : ℤ) (code ty : String)
    (th : ℚ) (iv : ℤ) (dir : String) (now now2 : ℚ) :
    ((add_alert st u code ty th iv dir now).1 = false ↔
      ∃ e ∈ st.alerts, e.user_id = u ∧ e.stock_code = code ∧ e.alert_type = ty
        ∧ e.threshold = th ∧ e.threshold_direction = dir
        ∧ e.interval_minutes = iv)
    ∧ ((add_alert st u code ty th iv dir now).1 = true →
        (add_alert st u code ty th iv dir now).2
          = { st with alerts := st.alerts ++ [⟨u, code, ty, th, dir, iv, none, now⟩] })
    ∧ ((add_alert st u code ty th iv dir now).1 = false →
        (add_alert st u code ty th iv dir now).2 = st)
    ∧ ((add_alert st u code ty th iv dir now).1 = true →
        (add_alert (add_alert st u code ty th iv dir now).2
          u code ty th iv dir now2).1 = false) := by
  cases hb : st.alerts.any (fun e =>
      decide (e.user_id = u ∧ e.stock_code = code ∧ e.alert_type = ty
        ∧ e.threshold = th ∧ e.threshold_direction = dir
        ∧ e.interval_minutes = iv)) with
  | true =>
    have hres : add_alert st u code ty th iv dir now = (false, st) := by
      unfold add_alert
      rw [hb]
      simp
    refine ⟨?_, ?_, ?_, ?_⟩
    · rw [hres]
      constructor
      · intro _
        rcases List.any_eq_true.mp hb with ⟨e, he, hpe⟩
        exact ⟨e, he, decide_eq_true_eq.mp hpe⟩
      · intro _
        rfl
    · intro hcontra
      rw [hres] at hcontra
      exact absurd hcontra (by simp)
    · intro _
      rw [hres]
    · intro hcontra
      rw [hres] at hcontra
      exact absurd hcontra (by simp)
  | false =>
    have hres : add_alert st u code ty th iv dir now
        = (true, { st with
            alerts := st.alerts ++ [⟨u, code, ty, th, dir, iv, none, now⟩] }) := by
      unfold add_alert
      rw [hb]
      simp
    refine ⟨?_, ?_, ?_, ?_⟩
    · rw [hres]
      constructor
      · intro hcontra
        exact absurd hcontra (by simp)
      · rintro ⟨e, he, h1, h2, h3, h4, h5, h6⟩
        have hany : st.alerts.any (fun e =>
            decide (e.user_id = u ∧ e.stock_code = code ∧ e.alert_type = ty
              ∧ e.threshold = th ∧ e.threshold_direction = dir
              ∧ e.interval_minutes = iv)) = true :=
          List.any_eq_true.mpr
            ⟨e, he, decide_eq_true_eq.mpr ⟨h1, h2, h3, h4, h5, h6⟩⟩
        rw [hb] at hany
        exact absurd hany (by simp)
    · intro _
      rw [hres]
    · intro hcontra
      rw [hres] at hcontra
      exact absurd hcontra (by simp)
    · intro _
      rw [hres]
      show (add_alert { st with
        alerts := st.alerts ++ [⟨u, code, ty, th, dir, iv, none, now⟩] }
          u code ty th iv dir now2).1 = false
      have hany : ({ st with
          alerts := st.alerts ++ [⟨u, code, ty, th, dir, iv, none, now⟩] }
            : AlertsData).alerts.any (fun e =>
          decide (e.user_id = u ∧ e.stock_code = code ∧ e.alert_type = ty
            ∧ e.threshold = th ∧ e.threshold_direction = dir
            ∧ e.interval_minutes = iv)) = true := by
        refine List.any_eq_true.mpr ⟨⟨u, code, ty, th, dir, iv, none, now⟩, ?_, ?_⟩
        · simp
        · exact decide_eq_true_eq.mpr ⟨rfl, rfl, rfl, rfl, rfl, rfl⟩
      unfold add_alert
      rw [hany]
      simp

/-- Witness for C7: adding the same definition twice to the empty
collection returns success then duplicate. -/
theorem add_alert_unique_witness :
    (add_alert emptyAlerts 1 "600000" "今日涨跌" 5 5 "both" 0).1 = true
    ∧ (add_alert (add_alert emptyAlerts 1 "600000" "今日涨跌" 5 5 "both" 0).2
        1 "600000" "今日涨跌" 5 5 "both" 1).1 = false := by
  have h1 : (add_alert emptyAlerts 1 "600000" "今日涨跌" 5 5 "both" 0).1 = true := by
    with_unfolding_all decide
  exact ⟨h1, (add_alert_unique emptyAlerts 1 "600000" "今日涨跌" 5 5 "both" 0 1).2.2.2 h1⟩

/-- Claim C1: the DailyChange edge check returns true iff the direction
condition (Both: `|cp| ≥ t`; Up: `cp ≥ t`; Down: `cp ≤ -t`) holds for
the given change percent and the stored `triggered` flag under the
alert's state key was false before the call; regardless of the result,
the stored state is overwritten with the newly computed flag and change
percent.  Fed the sequence [3, 6, 7, 4, 8] with threshold 5 and
direction Both, it fires exactly at the 6 and at the final 8. -/
theorem daily_change_edge (st : AlertsData) (a : AlertRec) (cp now : ℚ) :
    ((can_send_daily_change_alert st a cp now).1 = true ↔
      (((a.threshold_direction = "both" ∧ |cp| ≥ a.threshold)
        ∨ (a.threshold_direction = "up" ∧ cp ≥ a.threshold)
        ∨ (a.threshold_direction = "down" ∧ cp ≤ -a.threshold))
       ∧ ((alookup st.alert_states (dailyStateKey a)).map
            (fun s => s.triggered)).getD false = false))
    ∧ (can_send_daily_change_alert st a cp now).2.alert_states
        = ainsert st.alert_states (dailyStateKey a)
            ⟨decide ((a.threshold_direction = "both" ∧ |cp| ≥ a.threshold)
              ∨ (a.threshold_direction = "up" ∧ cp ≥ a.threshold)
              ∨ (a.threshold_direction = "down" ∧ cp ≤ -a.threshold)),
              cp, now, a.stock_code ++ "_" ++ a.alert_type⟩
    ∧ daily_fire_seq alertDaily5 emptyAlerts [3, 6, 7, 4, 8]
        = [false, true, false, false, true] := by
  refine ⟨?_, ?_, ?_⟩
  · show (daily_trigger_cond a.threshold_direction a.threshold cp
      && !((alookup st.alert_states (dailyStateKey a)).map
            (fun s => s.triggered)).getD false) = true ↔ _
    rw [daily_trigger_cond_eq_decide]
    simp [Bool.and_eq_true, Bool.not_eq_true']
  · show ainsert st.alert_states (dailyStateKey a)
      ⟨daily_trigger_cond a.threshold_direction a.threshold cp, cp, now,
        a.stock_code ++ "_" ++ a.alert_type⟩ = _
    rw [daily_trigger_cond_eq_decide]
  · with_unfolding_all decide

/-- Counterexample to claim C2 as stated: the engine applies the
direction predicate to the delta rounded to two decimals, and it treats
a stored non-positive reference as absent.  With reference 10000 and
current price 10199.6 the raw delta is 1.996 % (< 2), yet the threshold
2 alert triggers because the rounded delta is 2.00 %; and with a fresh
stored reference of −10 a Down alert whose raw delta (−50 %) satisfies
the predicate does not trigger at all. -/
theorem windowed_eval_counterexample :
    get_last_price_for_alert refState alertWinBoth 1 = some 10000
    ∧ (check_windowed_alert refState alertWinBoth (50998/5) 1).triggered = true
    ∧ ¬ (|((50998/5 : ℚ) - 10000) / 10000 * 100| ≥ 2)
    ∧ get_last_price_for_alert refStateNeg alertWinDown 1 = some (-10)
    ∧ (((-5 : ℚ) - (-10)) / (-10) * 100 ≤ -2)
    ∧ (check_windowed_alert refStateNeg alertWinDown (-5) 1).triggered = false
    ∧ (check_windowed_alert refStateNeg alertWinDown (-5) 1).queued = false := by
  have h1 : get_last_price_for_alert refState alertWinBoth 1 = some 10000 := by
    norm_num [get_last_price_for_alert, refState, emptyAlerts, alookup, alertWinBoth]
  have h2 : round2 (499/250 : ℚ) = 2 := by
    norm_num [round2, rhe]
  have h3 : (2:ℚ) ≤ |round2 (499/250 : ℚ)| := by
    rw [h2]
    rw [abs_two]
  have h4 : get_last_price_for_alert refStateNeg alertWinDown 1 = some (-10) := by
    norm_num [get_last_price_for_alert, refStateNeg, emptyAlerts, alookup, alertWinDown]
  refine ⟨h1, ?_, ?_, h4, ?_, ?_, ?_⟩
  · simp only [check_windowed_alert, h1]
    norm_num [windowed_trigger_cond, alertWinBoth, h3]
  · rw [not_le, abs_lt]
    constructor <;> norm_num
  · norm_num
  · simp only [check_windowed_alert, h4]
    norm_num
  · simp only [check_windowed_alert, h4]
    norm_num

theorem can_send_alert_spec (st : AlertsData) (a : AlertRec) (now : ℚ) :
    (can_send_alert st a now).2.price_history = st.price_history
    ∧ ((can_send_alert st a now).1 = true ↔
        ∀ lt, alookup st.last_alert_times (rateKey a) = some lt
          → (a.interval_minutes : ℚ) ≤ now - lt) := by
  unfold can_send_alert
  cases hal : alookup st.last_alert_times (rateKey a) with
  | none => simp
  | some lt0 =>
    by_cases hlt : now - lt0 < (a.interval_minutes : ℚ)
    · refine ⟨by simp [hlt], ?_⟩
      simp [hlt]
    · refine ⟨by simp [hlt], ?_⟩
      simp [hlt]
      exact not_lt.mp hlt

/-- Claim C2 (amended): on a tick where a WindowedChange alert's symbol
is open and a quote resolved, if no valid positive reference price is
stored (no entry, an entry older than interval + 2 minutes, or a
non-positive stored price) the engine records the current price as the
new reference and neither triggers nor queues anything; given a valid
positive reference `lp`, the alert triggers exactly when the direction
predicate holds for the delta `(cur − lp)/lp × 100` rounded to two
decimals, and on triggering the reference is overwritten with the
current price before the rate-limit check decides whether the
notification is queued; without triggering the state is untouched. -/
theorem windowed_eval (st : AlertsData) (a : AlertRec) (cur now : ℚ) :
    (get_last_price_for_alert st a now = none →
      check_windowed_alert st a cur now
        = ⟨update_last_price_for_alert st a cur now, false, false⟩)
    ∧ (∀ lp, get_last_price_for_alert st a now = some lp → lp ≤ 0 →
      check_windowed_alert st a cur now
        = ⟨update_last_price_for_alert st a cur now, false, false⟩)
    ∧ (∀ lp, get_last_price_for_alert st a now = some lp → 0 < lp →
      (((check_windowed_alert st a cur now).triggered = true ↔
        ((a.threshold_direction = "both"
            ∧ |round2 ((cur - lp) / lp * 100)| ≥ a.threshold)
          ∨ (a.threshold_direction = "up"
            ∧ round2 ((cur - lp) / lp * 100) ≥ a.threshold)
          ∨ (a.threshold_direction = "down"
            ∧ round2 ((cur - lp) / lp * 100) ≤ -a.threshold)))
      ∧ ((check_windowed_alert st a cur now).triggered = true →
          alookup (check_windowed_alert st a cur now).state.price_history
              (lastPriceKey a) = some ⟨cur, now⟩
          ∧ ((check_windowed_alert st a cur now).queued = true ↔
              ∀ lt, alookup st.last_alert_times (rateKey a) = some lt
                → (a.interval_minutes : ℚ) ≤ now - lt))
      ∧ ((check_windowed_alert st a cur now).triggered = false →
          check_windowed_alert st a cur now = ⟨st, false, false⟩))) := by
  refine ⟨?_, ?_, ?_⟩
  · intro h
    unfold check_windowed_alert
    rw [h]
  · intro lp hlp hle
    unfold check_windowed_alert
    split
    · rename_i lp2 heq
      rw [hlp] at heq
      cases heq
      rw [if_neg (not_lt.mpr hle)]
    · rfl
  · intro lp hlp hpos
    have hcw : check_windowed_alert st a cur now =
        (if windowed_trigger_cond a.threshold_direction a.threshold
            (round2 ((cur - lp) / lp * 100)) then
          (⟨(can_send_alert (update_last_price_for_alert st a cur now) a now).2,
            true,
            (can_send_alert (update_last_price_for_alert st a cur now) a now).1⟩
            : WinResult)
        else ⟨st, false, false⟩) := by
      unfold check_windowed_alert
      split
      · rename_i lp2 heq
        rw [hlp] at heq
        cases heq
        rw [if_pos hpos]
      · rename_i heq
        rw [hlp] at heq
        exact absurd heq (by simp)
    by_cases htr : windowed_trigger_cond a.threshold_direction a.threshold
        (round2 ((cur - lp) / lp * 100)) = true
    · rw [if_pos htr] at hcw
      refine ⟨?_, ?_, ?_⟩
      · rw [hcw]
        constructor
        · intro _
          rw [windowed_trigger_cond_eq_decide] at htr
          exact decide_eq_true_eq.mp htr
        · intro _
          rfl
      · intro _
        have hspec := can_send_alert_spec
          (update_last_price_for_alert st a cur now) a now
        constructor
        · rw [hcw]
          show alookup (can_send_alert
            (update_last_price_for_alert st a cur now) a now).2.price_history
              (lastPriceKey a) = some ⟨cur, now⟩
          rw [hspec.1]
          exact alookup_ainsert st.price_history (lastPriceKey a) ⟨cur, now⟩
        · rw [hcw]
          exact hspec.2
      · intro hfalse
        rw [hcw] at hfalse
        exact absurd hfalse (by simp)
    · rw [if_neg htr] at hcw
      have htrf : windowed_trigger_cond a.threshold_direction a.threshold
          (round2 ((cur - lp) / lp * 100)) = false := by
        cases hcond : windowed_trigger_cond a.threshold_direction a.threshold
            (round2 ((cur - lp) / lp * 100)) with
        | true => exact absurd hcond htr
        | false => rfl
      refine ⟨?_, ?_, fun _ => hcw⟩
      · rw [hcw]
        constructor
        · intro hcontra
          exact absurd hcontra (by simp)
        · intro hD
          rw [windowed_trigger_cond_eq_decide] at htrf
          exact absurd (decide_eq_true_eq.mpr hD)
            (by rw [htrf]; simp)
      · intro hcontra
        rw [hcw] at hcontra
        exact absurd hcontra (by simp)

/-- Witness for C2 (amended) at a fresh positive reference of 100, an Up
alert with threshold 2 and current price 103: the rounded delta is 3 %,
so the alert triggers. -/
theorem windowed_eval_witness :
    get_last_price_for_alert refStateUp alertWinUp 1 = some 100
    ∧ (0 : ℚ) < 100
    ∧ (check_windowed_alert refStateUp alertWinUp 103 1).triggered = true := by
  have h1 : get_last_price_for_alert refStateUp alertWinUp 1 = some 100 := by
    norm_num [get_last_price_for_alert, refStateUp, emptyAlerts, alookup, alertWinUp]
  refine ⟨h1, by norm_num, ?_⟩
  have h := (windowed_eval refStateUp alertWinUp 103 1).2.2 100 h1 (by norm_num)
  refine h.1.mpr (Or.inr (Or.inl ⟨rfl, ?_⟩))
  have h2 : round2 ((103 - 100 : ℚ) / 100 * 100) = 3 := by
    norm_num [round2, rhe]
  rw [h2]
  show (2:ℚ) ≤ 3
  norm_num


/-- Claim C9: for every successfully parsed quote, the change percent
equals `(current − previous close)/previous close × 100` rounded to two
decimals when the previous close is positive, and both the change
percent and the absolute change are 0 when the previous close is ≤ 0. -/
theorem change_percent_formula (j : List (String × List String))
    (code : String) (now : ℚ) (sd : StockData)
    (h : parse_single_stock_data j code now = some sd) :
    (0 < sd.prev_close →
      sd.change_percent
        = round2 ((sd.current_price - sd.prev_close) / sd.prev_close * 100))
    ∧ (sd.prev_close ≤ 0 → sd.change_percent = 0 ∧ sd.change = 0) := by
  unfold parse_single_stock_data at h
  split at h
  · exact absurd h (by simp)
  · split at h
    · exact absurd h (by simp)
    · split at h
      · rw [Option.some_inj] at h
        subst h
        rename_i cur prev opn vol hi lo hcur hprev hopn hvol hhi hlo
        refine ⟨?_, ?_⟩
        · intro hpos
          simp only [] at hpos ⊢
          rw [if_pos hpos]
        · intro hle
          simp only [] at hle ⊢
          rw [if_neg (not_lt.mpr hle), if_neg (not_lt.mpr hle)]
          exact ⟨rfl, rfl⟩
      · exact absurd h (by simp)

set_option maxRecDepth 2000 in
/-- Witness for C9 at a concrete parsed quote with previous close 10 and
current price 10.5: the stored change percent is 5. -/
theorem change_percent_formula_witness :
    parse_single_stock_data jsonSh "600000" 0 = some quoteSh
    ∧ (0 : ℚ) < quoteSh.prev_close
    ∧ quoteSh.change_percent
        = round2 ((quoteSh.current_price - quoteSh.prev_close)
            / quoteSh.prev_close * 100) := by
  have hvk : venueKey "600000" = "sh600000" := by with_unfolding_all decide
  have hkey : alookup jsonSh (venueKey "600000") = some fieldsSh := by
    simp [jsonSh, alookup, hvk]
  have hlen : ¬ (fieldsSh.length < 40) := by decide
  have hg3 : fieldsSh.getD 3 "" = "10.5" := by with_unfolding_all rfl
  have hg4 : fieldsSh.getD 4 "" = "10" := by with_unfolding_all rfl
  have hg5 : fieldsSh.getD 5 "" = "10.1" := by with_unfolding_all rfl
  have hg6 : fieldsSh.getD 6 "" = "1000" := by with_unfolding_all rfl
  have hg7 : fieldsSh.getD 33 "" = "1" := by with_unfolding_all rfl
  have hg8 : fieldsSh.getD 34 "" = "1" := by with_unfolding_all rfl
  have h3 : parseFloat? (fieldsSh.getD 3 "") = some (21/2) := by
    rw [hg3]
    with_unfolding_all decide
  have h4 : parseFloat? (fieldsSh.getD 4 "") = some 10 := by
    rw [hg4]
    with_unfolding_all decide
  have h5 : parseFloat? (fieldsSh.getD 5 "") = some (101/10) := by
    rw [hg5]
    with_unfolding_all decide
  have h6 : pyVolume? (fieldsSh.getD 6 "") = some 1000 := by
    rw [hg6]
    with_unfolding_all decide
  have h7 : pyOptFloat? (fieldsSh.getD 33 "") = some 1 := by
    rw [hg7]
    with_unfolding_all decide
  have h8 : pyOptFloat? (fieldsSh.getD 34 "") = some 1 := by
    rw [hg8]
    with_unfolding_all decide
  have hr2 : round2 (((21/2 : ℚ) - 10) / 10 * 100) = 5 := by
    norm_num [round2, rhe]
  have hr1 : round2 ((21/2 : ℚ) - 10) = 1/2 := by
    norm_num [round2, rhe]
  have hp : parse_single_stock_data jsonSh "600000" 0 = some quoteSh := by
    unfold parse_single_stock_data
    simp only [hkey]
    rw [if_neg hlen]
    simp only [h3, h4, h5, h6, h7, h8]
    unfold quoteSh
    norm_num [hr1, hr2]
    with_unfolding_all decide
  refine ⟨hp, by norm_num [quoteSh], ?_⟩
  exact (change_percent_formula jsonSh "600000" 0 quoteSh hp).1
    (by norm_num [quoteSh])


theorem parse_single_eval (j : List (String × List String)) (code : String)
    (now : ℚ) (fields : List String) (cur prev opn : ℚ) (vol : ℤ) (hi lo : ℚ)
    (hal : alookup j (venueKey code) = some fields)
    (hlen : ¬ (fields.length < 40))
    (h3 : parseFloat? (fields.getD 3 "") = some cur)
    (h4 : parseFloat? (fields.getD 4 "") = some prev)
    (h5 : parseFloat? (fields.getD 5 "") = some opn)
    (h6 : pyVolume? (fields.getD 6 "") = some vol)
    (h7 : pyOptFloat? (fields.getD 33 "") = some hi)
    (h8 : pyOptFloat? (fields.getD 34 "") = some lo) :
    parse_single_stock_data j code now
      = some ⟨fields.getD 2 "", fields.getD 1 "", cur, prev, opn, vol, hi, lo,
          (if 0 < prev then round2 (cur - prev) else 0),
          (if 0 < prev then round2 ((cur - prev) / prev * 100) else 0), now⟩ := by
  unfold parse_single_stock_data
  simp only [hal]
  rw [if_neg hlen]
  simp only [h3, h4, h5, h6, h7, h8]

set_option maxRecDepth 2000 in
theorem parse_jsonTwo_sh :
    parse_single_stock_data jsonTwo "600000" 0 = some quoteSh := by
  have hvk : venueKey "600000" = "sh600000" := by with_unfolding_all decide
  have hal : alookup jsonTwo (venueKey "600000") = some fieldsSh := by
    simp [jsonTwo, alookup, hvk]
  have hlen : ¬ (fieldsSh.length < 40) := by decide
  have hg1 : fieldsSh.getD 1 "" = "平安银行" := by with_unfolding_all rfl
  have hg2 : fieldsSh.getD 2 "" = "600000" := by with_unfolding_all rfl
  have hg3 : fieldsSh.getD 3 "" = "10.5" := by with_unfolding_all rfl
  have hg4 : fieldsSh.getD 4 "" = "10" := by with_unfolding_all rfl
  have hg5 : fieldsSh.getD 5 "" = "10.1" := by with_unfolding_all rfl
  have hg6 : fieldsSh.getD 6 "" = "1000" := by with_unfolding_all rfl
  have hg7 : fieldsSh.getD 33 "" = "1" := by with_unfolding_all rfl
  have hg8 : fieldsSh.getD 34 "" = "1" := by with_unfolding_all rfl
  have h3 : parseFloat? (fieldsSh.getD 3 "") = some (21/2) := by
    rw [hg3]
    with_unfolding_all decide
  have h4 : parseFloat? (fieldsSh.getD 4 "") = some 10 := by
    rw [hg4]
    with_unfolding_all decide
  have h5 : parseFloat? (fieldsSh.getD 5 "") = some (101/10) := by
    rw [hg5]
    with_unfolding_all decide
  have h6 : pyVolume? (fieldsSh.getD 6 "") = some 1000 := by
    rw [hg6]
    with_unfolding_all decide
  have h7 : pyOptFloat? (fieldsSh.getD 33 "") = some 1 := by
    rw [hg7]
    with_unfolding_all decide
  have h8 : pyOptFloat? (fieldsSh.getD 34 "") = some 1 := by
    rw [hg8]
    with_unfolding_all decide
  have hr1 : round2 ((21/2 : ℚ) - 10) = 1/2 := by norm_num [round2, rhe]
  have hr2 : round2 (((21/2 : ℚ) - 10) / 10 * 100) = 5 := by
    norm_num [round2, rhe]
  rw [parse_single_eval jsonTwo "600000" 0 fieldsSh (21/2) 10 (101/10) 1000 1 1
    hal hlen h3 h4 h5 h6 h7 h8]
  rw [hg1, hg2]
  unfold quoteSh
  norm_num [hr1, hr2]
  constructor <;> norm_num [round2, rhe]

set_option maxRecDepth 2000 in
theorem parse_jsonTwo_sz :
    parse_single_stock_data jsonTwo "000001" 0 = some quoteSz := by
  have hvk : venueKey "000001" = "sz000001" := by with_unfolding_all decide
  have hne : ¬ (("sh600000" : String) = "sz000001") := by decide
  have hal : alookup jsonTwo (venueKey "000001") = some fieldsSz := by
    simp [jsonTwo, alookup, hvk, hne]
  have hlen : ¬ (fieldsSz.length < 40) := by decide
  have hg1 : fieldsSz.getD 1 "" = "万科A" := by with_unfolding_all rfl
  have hg2 : fieldsSz.getD 2 "" = "000001" := by with_unfolding_all rfl
  have hg3 : fieldsSz.getD 3 "" = "20" := by with_unfolding_all rfl
  have hg4 : fieldsSz.getD 4 "" = "16" := by with_unfolding_all rfl
  have hg5 : fieldsSz.getD 5 "" = "18" := by with_unfolding_all rfl
  have hg6 : fieldsSz.getD 6 "" = "500" := by with_unfolding_all rfl
  have hg7 : fieldsSz.getD 33 "" = "2" := by with_unfolding_all rfl
  have hg8 : fieldsSz.getD 34 "" = "2" := by with_unfolding_all rfl
  have h3 : parseFloat? (fieldsSz.getD 3 "") = some 20 := by
    rw [hg3]
    with_unfolding_all decide
  have h4 : parseFloat? (fieldsSz.getD 4 "") = some 16 := by
    rw [hg4]
    with_unfolding_all decide
  have h5 : parseFloat? (fieldsSz.getD 5 "") = some 18 := by
    rw [hg5]
    with_unfolding_all decide
  have h6 : pyVolume? (fieldsSz.getD 6 "") = some 500 := by
    rw [hg6]
    with_unfolding_all decide
  have h7 : pyOptFloat? (fieldsSz.getD 33 "") = some 2 := by
    rw [hg7]
    with_unfolding_all decide
  have h8 : pyOptFloat? (fieldsSz.getD 34 "") = some 2 := by
    rw [hg8]
    with_unfolding_all decide
  have hr1 : round2 ((20 : ℚ) - 16) = 4 := by norm_num [round2, rhe]
  have hr2 : round2 (((20 : ℚ) - 16) / 16 * 100) = 25 := by
    norm_num [round2, rhe]
  rw [parse_single_eval jsonTwo "000001" 0 fieldsSz 20 16 18 500 2 2
    hal hlen h3 h4 h5 h6 h7 h8]
  rw [hg1, hg2]
  unfold quoteSz
  norm_num [hr1, hr2]
  constructor <;> norm_num [round2, rhe]

theorem parse_jsonTwo_missing :
    parse_single_stock_data jsonTwo "600001" 0 = none := by
  have hvk : venueKey "600001" = "sh600001" := by with_unfolding_all decide
  have hn1 : ¬ (("sh600000" : String) = "sh600001") := by decide
  have hn2 : ¬ (("sz000001" : String) = "sh600001") := by decide
  have hal : alookup jsonTwo (venueKey "600001") = none := by
    simp [jsonTwo, alookup, hvk, hn1, hn2]
  unfold parse_single_stock_data
  simp only [hal]

theorem parse_batch_results_eq (j : List (String × List String)) (now : ℚ)
    (codes : List String) (cache : List (String × CacheEntry)) :
    (parse_batch_api_response j codes now cache).1
      = codes.map (fun c => (c, parse_single_stock_data j c now)) := by
  induction codes generalizing cache with
  | nil => rfl
  | cons c cs ih =>
    unfold parse_batch_api_response
    simp only [List.map]
    simp [ih]


/-- Claim C6 (amended): in a batched fetch, a requested symbol resolves
to a quote iff its venue-qualified key is present in the parsed upstream
response, the key's field array has at least 40 fields, and the numeric
fields convert (price, previous close and open always; volume, high and
low when nonempty); each symbol is parsed independently of the others,
and against a response carrying only two valid keys, requesting three
symbols yields exactly the two present quotes, independently correct,
and one absent. -/
theorem batch_parse_partial (j : List (String × List String)) (code : String)
    (now : ℚ) (codes : List String) (cache : List (String × CacheEntry)) :
    ((parse_single_stock_data j code now).isSome = true ↔
      ∃ fields, alookup j (venueKey code) = some fields ∧ 40 ≤ fields.length
        ∧ (parseFloat? (fields.getD 3 "")).isSome = true
        ∧ (parseFloat? (fields.getD 4 "")).isSome = true
        ∧ (parseFloat? (fields.getD 5 "")).isSome = true
        ∧ (fields.getD 6 "" = "" ∨ (parseInt? (fields.getD 6 "")).isSome = true)
        ∧ (fields.getD 33 "" = "" ∨ (parseFloat? (fields.getD 33 "")).isSome = true)
        ∧ (fields.getD 34 "" = "" ∨ (parseFloat? (fields.getD 34 "")).isSome = true))
    ∧ (parse_batch_api_response j codes now cache).1
        = codes.map (fun c => (c, parse_single_stock_data j c now))
    ∧ (parse_batch_api_response jsonTwo ["600000", "000001", "600001"] 0 []).1
        = [("600000", some quoteSh), ("000001", some quoteSz),
            ("600001", none)] := by
  refine ⟨?_, parse_batch_results_eq j now codes cache, ?_⟩
  · constructor
    · intro h
      unfold parse_single_stock_data at h
      split at h
      · simp at h
      · rename_i fields heq
        split at h
        · simp at h
        · rename_i hlen
          split at h
          case _ cur prev opn vol hi lo h3 h4 h5 h6 h7 h8 =>
            refine ⟨fields, heq, by omega, ?_, ?_, ?_, ?_, ?_, ?_⟩
            · rw [h3]
              rfl
            · rw [h4]
              rfl
            · rw [h5]
              rfl
            · by_cases hs : fields.getD 6 "" = ""
              · exact Or.inl hs
              · refine Or.inr ?_
                unfold pyVolume? at h6
                rw [if_neg hs] at h6
                rw [h6]
                rfl
            · by_cases hs : fields.getD 33 "" = ""
              · exact Or.inl hs
              · refine Or.inr ?_
                unfold pyOptFloat? at h7
                rw [if_neg hs] at h7
                rw [h7]
                rfl
            · by_cases hs : fields.getD 34 "" = ""
              · exact Or.inl hs
              · refine Or.inr ?_
                unfold pyOptFloat? at h8
                rw [if_neg hs] at h8
                rw [h8]
                rfl
          all_goals simp at h
    · rintro ⟨fields, hal, hlen, h3, h4, h5, h6, h7, h8⟩
      obtain ⟨cur, hc3⟩ := Option.isSome_iff_exists.mp h3
      obtain ⟨prev, hc4⟩ := Option.isSome_iff_exists.mp h4
      obtain ⟨opn, hc5⟩ := Option.isSome_iff_exists.mp h5
      have h6i : (pyVolume? (fields.getD 6 "")).isSome = true := by
        unfold pyVolume?
        by_cases hs : fields.getD 6 "" = ""
        · rw [if_pos hs]
          rfl
        · rw [if_neg hs]
          rcases h6 with h | h
          · exact absurd h hs
          · exact h
      have h7i : (pyOptFloat? (fields.getD 33 "")).isSome = true := by
        unfold pyOptFloat?
        by_cases hs : fields.getD 33 "" = ""
        · rw [if_pos hs]
          rfl
        · rw [if_neg hs]
          rcases h7 with h | h
          · exact absurd h hs
          · exact h
      have h8i : (pyOptFloat? (fields.getD 34 "")).isSome = true := by
        unfold pyOptFloat?
        by_cases hs : fields.getD 34 "" = ""
        · rw [if_pos hs]
          rfl
        · rw [if_neg hs]
          rcases h8 with h | h
          · exact absurd h hs
          · exact h
      obtain ⟨vol, hc6⟩ := Option.isSome_iff_exists.mp h6i
      obtain ⟨hi, hc7⟩ := Option.isSome_iff_exists.mp h7i
      obtain ⟨lo, hc8⟩ := Option.isSome_iff_exists.mp h8i
      rw [parse_single_eval j code now fields cur prev opn vol hi lo hal
        (by omega) hc3 hc4 hc5 hc6 hc7 hc8]
      rfl
  · rw [parse_batch_results_eq]
    simp [parse_jsonTwo_sh, parse_jsonTwo_sz, parse_jsonTwo_missing]

set_option maxRecDepth 2000 in
/-- Counterexample to claim C6 as stated: a present venue-qualified key
with a full 40-entry field array still resolves absent when a numeric
field fails to convert — here the price field is the non-numeric
"abc". -/
theorem batch_parse_counterexample :
    alookup jsonBad (venueKey "600000") = some fieldsBad
    ∧ fieldsBad.length = 40
    ∧ parse_single_stock_data jsonBad "600000" 0 = none := by
  have hvk : venueKey "600000" = "sh600000" := by with_unfolding_all decide
  have hal : alookup jsonBad (venueKey "600000") = some fieldsBad := by
    simp [jsonBad, alookup, hvk]
  have hg3 : fieldsBad.getD 3 "" = "abc" := by with_unfolding_all rfl
  have h3 : parseFloat? (fieldsBad.getD 3 "") = none := by
    rw [hg3]
    with_unfolding_all decide
  refine ⟨hal, by decide, ?_⟩
  unfold parse_single_stock_data
  simp only [hal]
  rw [if_neg (by decide : ¬ (fieldsBad.length < 40))]
  split
  case _ cur prev opn vol hi lo hc3 hc4 hc5 hc6 hc7 hc8 =>
    rw [h3] at hc3
    exact absurd hc3 (by simp)
  all_goals rfl

end StockBot